import Mathlib

/-
Verification of the quote-pair reducer `DataManipulator.generateRow`
(`DataManipulator.ts`) and of the view configuration and update protocol of the
`Graph` component (`Graph.tsx`).

Numbers of the source language are modelled by `JSNum`: an exact rational value
or one of the IEEE special values `NaN`, `+Infinity`, `-Infinity`.  Finite
arithmetic is exact (binary rounding is not modelled); the special values follow
the IEEE rules that the source language's `number` type obeys for the operations
the sources use (addition, division, `<`, `>`).  Timestamps are modelled as
integers (milliseconds since the epoch), which is how `Date` values compare.
-/

/-- A value of the source language's `number` type: an exact rational, or one of
the special values `NaN`, `+Infinity`, `-Infinity`. -/
inductive JSNum where
  | nan
  | posInf
  | negInf
  | fin (q : ℚ)
deriving DecidableEq, Repr

/-- Addition on `JSNum` (IEEE rules: `NaN` absorbs, opposite infinities give
`NaN`, an infinity absorbs finite values; finite addition is exact). -/
def JSNum.add : JSNum → JSNum → JSNum
  | nan, _ => nan
  | _, nan => nan
  | posInf, negInf => nan
  | negInf, posInf => nan
  | posInf, _ => posInf
  | _, posInf => posInf
  | negInf, _ => negInf
  | _, negInf => negInf
  | fin a, fin b => fin (a + b)

/-- Subtraction on `JSNum` (IEEE rules, mirroring `JSNum.add`). -/
def JSNum.sub : JSNum → JSNum → JSNum
  | nan, _ => nan
  | _, nan => nan
  | posInf, posInf => nan
  | negInf, negInf => nan
  | posInf, _ => posInf
  | _, posInf => negInf
  | negInf, _ => negInf
  | _, negInf => posInf
  | fin a, fin b => fin (a - b)

/-- Division on `JSNum` (IEEE rules: `NaN` absorbs, infinity over infinity is
`NaN`, a nonzero finite value over zero is a signed infinity, zero over zero is
`NaN`; finite division is exact).  Negative zero is not modelled: the sources
never produce it on the divisor paths used here. -/
def JSNum.div : JSNum → JSNum → JSNum
  | nan, _ => nan
  | _, nan => nan
  | posInf, posInf => nan
  | posInf, negInf => nan
  | negInf, posInf => nan
  | negInf, negInf => nan
  | posInf, fin b => if b < 0 then negInf else posInf
  | negInf, fin b => if b < 0 then posInf else negInf
  | fin _, posInf => fin 0
  | fin _, negInf => fin 0
  | fin a, fin b =>
      if b = 0 then
        if 0 < a then posInf
        else if a < 0 then negInf
        else nan
      else fin (a / b)

/-- The `<` comparison of the source language: `NaN` compares false against
everything, the infinities bound all finite values. -/
def JSNum.lt : JSNum → JSNum → Bool
  | nan, _ => false
  | _, nan => false
  | negInf, negInf => false
  | negInf, _ => true
  | _, negInf => false
  | posInf, _ => false
  | fin _, posInf => true
  | fin a, fin b => decide (a < b)

/-- The `>` comparison of the source language. -/
def JSNum.gt (a b : JSNum) : Bool := JSNum.lt b a

/-- Whether a `JSNum` is a finite value. -/
def JSNum.isFinite : JSNum → Bool
  | fin _ => true
  | _ => false

/-- One side of a top-of-book quote, carrying its price.  Modelled from the
spec: the `ServerRespond` interface lives in `DataStreamer.ts`, outside the
given sources; `generateRow` reads only `top_ask.price` and `top_bid.price`, so
the unread `size` field is omitted. -/
structure TopOfBook where
  price : JSNum
deriving DecidableEq, Repr

/-- Modelled from the spec: a QuoteSnapshot (`ServerRespond`) "carries a
top-of-book ask price, a top-of-book bid price, and a timestamp".  The
`top_ask`/`top_bid` fields are `Option`s so that an element lacking the required
price fields (`undefined` at run time) is representable; the unread instrument
identifier is omitted. -/
structure ServerRespond where
  top_ask : Option TopOfBook
  top_bid : Option TopOfBook
  timestamp : Int
deriving DecidableEq, Repr

/-- The `Row` interface of `DataManipulator.ts`.  The field
`trigger_alert : number | undefined` becomes `Option JSNum`: `none` is the
absent (`undefined`) case and carries no numeric value. -/
structure Row where
  price_abc : JSNum
  price_def : JSNum
  ratio : JSNum
  timestamp : Int
  upper_bound : JSNum
  lower_bound : JSNum
  trigger_alert : Option JSNum
deriving DecidableEq, Repr

/-- Modelled from the spec: `InvalidInputError`, "raised when the input pair
does not contain exactly two elements, or either element lacks required price
fields".  No error class of this name exists in the sources; the failure
surfaces there as the TypeError thrown by reading a property of `undefined`. -/
inductive InvalidInputError where
  | typeError
deriving DecidableEq, Repr

/-- `DataManipulator.generateRow` of `DataManipulator.ts`.  The source reads
`serverRespond[0]`, `serverRespond[1]` and their `top_ask`/`top_bid` fields; if
any of these accesses hits `undefined`, the property read throws (modelled as
`Except.error`).  Otherwise the row literal of the source is returned. -/
def DataManipulator.generateRow (serverRespond : List ServerRespond) :
    Except InvalidInputError Row :=
  match serverRespond[0]?, serverRespond[1]? with
  | some q0, some q1 =>
    match q0.top_ask, q0.top_bid, q1.top_ask, q1.top_bid with
    | some ask0, some bid0, some ask1, some bid1 =>
      -- const priceABC = (serverRespond[0].top_ask.price + serverRespond[0].top_bid.price) / 2;
      let priceABC := (ask0.price.add bid0.price).div (.fin 2)
      -- const priceDEF = (serverRespond[1].top_ask.price + serverRespond[1].top_bid.price) / 2;
      let priceDEF := (ask1.price.add bid1.price).div (.fin 2)
      -- const ratio = priceABC / priceDEF;
      let ratio := priceABC.div priceDEF
      -- const upperBound = 1 + 0.05;
      let upperBound := (JSNum.fin 1).add (.fin 0.05)
      -- const lowerBound = 1 - 0.05;
      let lowerBound := (JSNum.fin 1).sub (.fin 0.05)
      .ok {
        price_abc := priceABC
        price_def := priceDEF
        ratio := ratio
        -- serverRespond[0].timestamp > serverRespond[1].timestamp ? [0] : [1]
        timestamp := if q0.timestamp > q1.timestamp then q0.timestamp else q1.timestamp
        upper_bound := upperBound
        lower_bound := lowerBound
        -- (ratio > upperBound || ratio < lowerBound) ? ratio : undefined
        trigger_alert := if ratio.gt upperBound || ratio.lt lowerBound then some ratio else none
      }
    | _, _, _, _ => .error .typeError
  | _, _ => .error .typeError

/-- The attribute/schema configuration that `Graph.componentDidMount` of
`Graph.tsx` applies to the perspective viewer element, as literal data, in
source order. -/
structure GraphConfig where
  view : String
  row_pivots : List String
  columns : List String
  schema : List (String × String)
  aggregates : List (String × String)
deriving DecidableEq, Repr

/-- The configuration set by `Graph.componentDidMount`. -/
def Graph.componentDidMountConfig : GraphConfig :=
  { view := "y_line"
    row_pivots := ["timestamp"]
    columns := ["ratio", "lower_bound", "upper_bound", "trigger_alert"]
    schema := [("price_abc", "float"), ("price_def", "float"),
               ("upper_bound", "float"), ("lower_bound", "float"),
               ("trigger_alert", "float"), ("ratio", "float"),
               ("timestamp", "date")]
    aggregates := [("price_abc", "avg"), ("price_def", "avg"),
                   ("upper_bound", "avg"), ("lower_bound", "avg"),
                   ("trigger_alert", "avg"), ("ratio", "avg"),
                   ("timestamp", "distinct count")] }

/-- The seven field names of `Row`, in declaration order. -/
def Row.fieldNames : List String :=
  ["price_abc", "price_def", "ratio", "timestamp", "upper_bound", "lower_bound",
   "trigger_alert"]

/-- `Graph.componentDidUpdate` of `Graph.tsx`: the batch submitted to
`this.table.update` is the single row produced by `DataManipulator.generateRow`
wrapped in a one-element array literal; if `generateRow` throws, no batch is
submitted. -/
def Graph.componentDidUpdate (data : List ServerRespond) :
    Except InvalidInputError (List Row) :=
  (DataManipulator.generateRow data).map (fun row => [row])

/-- Evaluated form of `generateRow` on an input whose first two elements are
present and carry both book sides. -/
theorem generateRow_eq_ok (qs : List ServerRespond) (q0 q1 : ServerRespond)
    (ask0 bid0 ask1 bid1 : TopOfBook)
    (h0 : qs[0]? = some q0) (h1 : qs[1]? = some q1)
    (ha0 : q0.top_ask = some ask0) (hb0 : q0.top_bid = some bid0)
    (ha1 : q1.top_ask = some ask1) (hb1 : q1.top_bid = some bid1) :
    DataManipulator.generateRow qs = .ok {
      price_abc := (ask0.price.add bid0.price).div (.fin 2)
      price_def := (ask1.price.add bid1.price).div (.fin 2)
      ratio := ((ask0.price.add bid0.price).div (.fin 2)).div
        ((ask1.price.add bid1.price).div (.fin 2))
      timestamp := if q0.timestamp > q1.timestamp then q0.timestamp else q1.timestamp
      upper_bound := (JSNum.fin 1).add (.fin 0.05)
      lower_bound := (JSNum.fin 1).sub (.fin 0.05)
      trigger_alert :=
        if (((ask0.price.add bid0.price).div (.fin 2)).div
              ((ask1.price.add bid1.price).div (.fin 2))).gt
              ((JSNum.fin 1).add (.fin 0.05)) ||
           (((ask0.price.add bid0.price).div (.fin 2)).div
              ((ask1.price.add bid1.price).div (.fin 2))).lt
              ((JSNum.fin 1).sub (.fin 0.05))
        then some (((ask0.price.add bid0.price).div (.fin 2)).div
              ((ask1.price.add bid1.price).div (.fin 2)))
        else none
    } := by
  simp only [DataManipulator.generateRow, h0, h1, ha0, hb0, ha1, hb1]

/-- Inversion: a successful `generateRow` call determines the shape of the input
prefix and the returned row. -/
theorem generateRow_ok_inv (qs : List ServerRespond) (r : Row)
    (h : DataManipulator.generateRow qs = .ok r) :
    ∃ q0 q1 ask0 bid0 ask1 bid1,
      qs[0]? = some q0 ∧ qs[1]? = some q1 ∧
      q0.top_ask = some ask0 ∧ q0.top_bid = some bid0 ∧
      q1.top_ask = some ask1 ∧ q1.top_bid = some bid1 ∧
      r = {
        price_abc := (ask0.price.add bid0.price).div (.fin 2)
        price_def := (ask1.price.add bid1.price).div (.fin 2)
        ratio := ((ask0.price.add bid0.price).div (.fin 2)).div
          ((ask1.price.add bid1.price).div (.fin 2))
        timestamp := if q0.timestamp > q1.timestamp then q0.timestamp else q1.timestamp
        upper_bound := (JSNum.fin 1).add (.fin 0.05)
        lower_bound := (JSNum.fin 1).sub (.fin 0.05)
        trigger_alert :=
          if (((ask0.price.add bid0.price).div (.fin 2)).div
                ((ask1.price.add bid1.price).div (.fin 2))).gt
                ((JSNum.fin 1).add (.fin 0.05)) ||
             (((ask0.price.add bid0.price).div (.fin 2)).div
                ((ask1.price.add bid1.price).div (.fin 2))).lt
                ((JSNum.fin 1).sub (.fin 0.05))
          then some (((ask0.price.add bid0.price).div (.fin 2)).div
                ((ask1.price.add bid1.price).div (.fin 2)))
          else none } := by
  rcases e0 : qs[0]? with _ | q0
  · simp [DataManipulator.generateRow, e0] at h
  rcases e1 : qs[1]? with _ | q1
  · simp [DataManipulator.generateRow, e0, e1] at h
  rcases ea0 : q0.top_ask with _ | ask0
  · simp [DataManipulator.generateRow, e0, e1, ea0] at h
  rcases eb0 : q0.top_bid with _ | bid0
  · simp [DataManipulator.generateRow, e0, e1, ea0, eb0] at h
  rcases ea1 : q1.top_ask with _ | ask1
  · simp [DataManipulator.generateRow, e0, e1, ea0, eb0, ea1] at h
  rcases eb1 : q1.top_bid with _ | bid1
  · simp [DataManipulator.generateRow, e0, e1, ea0, eb0, ea1, eb1] at h
  refine ⟨q0, q1, ask0, bid0, ask1, bid1, rfl, rfl, ea0, eb0, ea1, eb1, ?_⟩
  simp only [DataManipulator.generateRow, e0, e1, ea0, eb0, ea1, eb1,
    Except.ok.injEq] at h
  exact h.symm

/-- The `1 + 0.05` upper bound of the source evaluates to `1.05`. -/
theorem upperBound_val : (JSNum.fin 1).add (.fin 0.05) = .fin 1.05 := by
  norm_num [JSNum.add]

/-- The `1 - 0.05` lower bound of the source evaluates to `0.95`. -/
theorem lowerBound_val : (JSNum.fin 1).sub (.fin 0.05) = .fin 0.95 := by
  norm_num [JSNum.sub]

/-- Concrete quote for instrument ABC (spec Scenario A: ask 101, bid 99). -/
def sampleA : ServerRespond :=
  { top_ask := some ⟨.fin 101⟩, top_bid := some ⟨.fin 99⟩, timestamp := 5 }

/-- Concrete quote for instrument DEF (spec Scenario A: ask 50, bid 50). -/
def sampleB : ServerRespond :=
  { top_ask := some ⟨.fin 50⟩, top_bid := some ⟨.fin 50⟩, timestamp := 3 }

/-- The row `generateRow` produces on `[sampleA, sampleB]`. -/
def sampleRow : Row :=
  { price_abc := .fin 100, price_def := .fin 50, ratio := .fin 2, timestamp := 5,
    upper_bound := .fin 1.05, lower_bound := .fin 0.95,
    trigger_alert := some (.fin 2) }

/-- Concrete evaluation of the reducer on the Scenario A pair. -/
theorem sample_eval :
    DataManipulator.generateRow [sampleA, sampleB] = .ok sampleRow := by
  rw [generateRow_eq_ok [sampleA, sampleB] sampleA sampleB
    ⟨.fin 101⟩ ⟨.fin 99⟩ ⟨.fin 50⟩ ⟨.fin 50⟩ rfl rfl rfl rfl rfl rfl]
  norm_num [JSNum.add, JSNum.sub, JSNum.div, JSNum.gt, JSNum.lt, sampleA, sampleB,
    sampleRow]

/-- C1: for every record the reducer returns, `trigger_alert` is present (it is
`some` of a value) exactly when `ratio > 1.05` or `ratio < 0.95` under the
source comparison semantics; when present it equals `ratio` itself, and when
absent it is `none`, carrying no value. -/
theorem generateRow_trigger_alert_iff (qs : List ServerRespond) (r : Row)
    (h : DataManipulator.generateRow qs = .ok r) :
    r.trigger_alert =
      if r.ratio.gt (.fin 1.05) || r.ratio.lt (.fin 0.95) then some r.ratio
      else none := by
  obtain ⟨q0, q1, ask0, bid0, ask1, bid1, -, -, -, -, -, -, hr⟩ :=
    generateRow_ok_inv qs r h
  subst hr
  simp only [upperBound_val, lowerBound_val]

/-- C1 witness: on the Scenario A pair the alert fires and carries the ratio. -/
theorem generateRow_trigger_alert_iff_witness :
    DataManipulator.generateRow [sampleA, sampleB] = .ok sampleRow ∧
    sampleRow.trigger_alert =
      (if sampleRow.ratio.gt (.fin 1.05) || sampleRow.ratio.lt (.fin 0.95) then
        some sampleRow.ratio
      else none) :=
  ⟨sample_eval, generateRow_trigger_alert_iff [sampleA, sampleB] sampleRow sample_eval⟩

/-- C2: for every successful reduction, `price_abc` is the mean of instrument
ABC's ask and bid, `price_def` is the mean of instrument DEF's ask and bid, and
`ratio` is their quotient, all under the source arithmetic. -/
theorem generateRow_mid_prices_and_quotient (qs : List ServerRespond) (r : Row)
    (q0 q1 : ServerRespond) (ask0 bid0 ask1 bid1 : TopOfBook)
    (h0 : qs[0]? = some q0) (h1 : qs[1]? = some q1)
    (ha0 : q0.top_ask = some ask0) (hb0 : q0.top_bid = some bid0)
    (ha1 : q1.top_ask = some ask1) (hb1 : q1.top_bid = some bid1)
    (h : DataManipulator.generateRow qs = .ok r) :
    r.price_abc = (ask0.price.add bid0.price).div (.fin 2) ∧
    r.price_def = (ask1.price.add bid1.price).div (.fin 2) ∧
    r.ratio = r.price_abc.div r.price_def := by
  rw [generateRow_eq_ok qs q0 q1 ask0 bid0 ask1 bid1 h0 h1 ha0 hb0 ha1 hb1] at h
  injection h with h
  subst h
  exact ⟨rfl, rfl, rfl⟩

/-- C2 witness: on the Scenario A pair the mid-prices are 100 and 50 and the
ratio is their quotient. -/
theorem generateRow_mid_prices_and_quotient_witness :
    DataManipulator.generateRow [sampleA, sampleB] = .ok sampleRow ∧
    sampleRow.price_abc = ((JSNum.fin 101).add (.fin 99)).div (.fin 2) ∧
    sampleRow.price_def = ((JSNum.fin 50).add (.fin 50)).div (.fin 2) ∧
    sampleRow.ratio = sampleRow.price_abc.div sampleRow.price_def :=
  ⟨sample_eval,
    generateRow_mid_prices_and_quotient [sampleA, sampleB] sampleRow sampleA
      sampleB ⟨.fin 101⟩ ⟨.fin 99⟩ ⟨.fin 50⟩ ⟨.fin 50⟩ rfl rfl rfl rfl rfl rfl
      sample_eval⟩

/-- C3: the returned record's timestamp is the maximum of the two input
timestamps, and when the two inputs tie, it equals both of them. -/
theorem generateRow_timestamp_max (qs : List ServerRespond) (r : Row)
    (q0 q1 : ServerRespond)
    (h0 : qs[0]? = some q0) (h1 : qs[1]? = some q1)
    (h : DataManipulator.generateRow qs = .ok r) :
    r.timestamp = max q0.timestamp q1.timestamp ∧
    (q0.timestamp = q1.timestamp →
      r.timestamp = q0.timestamp ∧ r.timestamp = q1.timestamp) := by
  obtain ⟨q0', q1', ask0, bid0, ask1, bid1, h0', h1', -, -, -, -, hr⟩ :=
    generateRow_ok_inv qs r h
  rw [h0] at h0'
  rw [h1] at h1'
  injection h0' with e0
  injection h1' with e1
  subst e0
  subst e1
  subst hr
  have hmax : (if q0.timestamp > q1.timestamp then q0.timestamp else q1.timestamp) =
      max q0.timestamp q1.timestamp := by
    rcases le_or_lt q0.timestamp q1.timestamp with hle | hlt
    · rw [if_neg (not_lt.mpr hle), max_eq_right hle]
    · rw [if_pos hlt, max_eq_left hlt.le]
  refine ⟨hmax, fun hteq => ?_⟩
  constructor
  · rw [hmax, hteq, max_self]
  · rw [hmax, hteq, max_self]

/-- C3 witness: on the Scenario A pair (timestamps 5 and 3) the record's
timestamp is 5, the maximum. -/
theorem generateRow_timestamp_max_witness :
    DataManipulator.generateRow [sampleA, sampleB] = .ok sampleRow ∧
    sampleRow.timestamp = max sampleA.timestamp sampleB.timestamp :=
  ⟨sample_eval,
    (generateRow_timestamp_max [sampleA, sampleB] sampleRow sampleA sampleB
      rfl rfl sample_eval).1⟩

/-- C4: on an input with fewer than two elements, or whose consumed pair has an
element lacking the ask or bid price field, the reducer fails with the
`InvalidInputError` and produces no record. -/
theorem generateRow_invalid_input_fails (qs : List ServerRespond)
    (h : qs.length < 2 ∨
      (∃ q, qs[0]? = some q ∧ (q.top_ask = none ∨ q.top_bid = none)) ∨
      (∃ q, qs[1]? = some q ∧ (q.top_ask = none ∨ q.top_bid = none))) :
    DataManipulator.generateRow qs = .error .typeError := by
  rcases e0 : qs[0]? with _ | q0
  · rcases e1 : qs[1]? with _ | q1 <;>
      simp [DataManipulator.generateRow, e0, e1]
  rcases e1 : qs[1]? with _ | q1
  · simp [DataManipulator.generateRow, e0, e1]
  rcases ea0 : q0.top_ask with _ | ask0
  · simp [DataManipulator.generateRow, e0, e1, ea0]
  rcases eb0 : q0.top_bid with _ | bid0
  · simp [DataManipulator.generateRow, e0, e1, ea0, eb0]
  rcases ea1 : q1.top_ask with _ | ask1
  · simp [DataManipulator.generateRow, e0, e1, ea0, eb0, ea1]
  rcases eb1 : q1.top_bid with _ | bid1
  · simp [DataManipulator.generateRow, e0, e1, ea0, eb0, ea1, eb1]
  exfalso
  rcases h with hlen | ⟨q, hq, hf⟩ | ⟨q, hq, hf⟩
  · have hnone : qs[1]? = none := List.getElem?_eq_none (by omega)
    rw [hnone] at e1
    cases e1
  · rw [hq] at e0
    injection e0 with e
    subst e
    rcases hf with hfa | hfb
    · rw [hfa] at ea0
      cases ea0
    · rw [hfb] at eb0
      cases eb0
  · rw [hq] at e1
    injection e1 with e
    subst e
    rcases hf with hfa | hfb
    · rw [hfa] at ea1
      cases ea1
    · rw [hfb] at eb1
      cases eb1

/-- C4 witness: the empty input has fewer than two elements and the reducer
fails on it. -/
theorem generateRow_invalid_input_fails_witness :
    ([] : List ServerRespond).length < 2 ∧
    DataManipulator.generateRow [] = .error .typeError :=
  ⟨by simp, generateRow_invalid_input_fails [] (Or.inl (by simp))⟩

/-- C6: every record the reducer produces has `upper_bound = 1.05` and
`lower_bound = 0.95`, independently of the input data, and they sum to 2. -/
theorem generateRow_bounds_constant (qs : List ServerRespond) (r : Row)
    (h : DataManipulator.generateRow qs = .ok r) :
    r.upper_bound = .fin 1.05 ∧ r.lower_bound = .fin 0.95 ∧
    r.upper_bound.add r.lower_bound = .fin 2 := by
  obtain ⟨q0, q1, ask0, bid0, ask1, bid1, -, -, -, -, -, -, hr⟩ :=
    generateRow_ok_inv qs r h
  subst hr
  refine ⟨upperBound_val, lowerBound_val, ?_⟩
  norm_num [JSNum.add, JSNum.sub]

/-- C6 witness: the Scenario A record carries the constant bounds, summing
to 2. -/
theorem generateRow_bounds_constant_witness :
    DataManipulator.generateRow [sampleA, sampleB] = .ok sampleRow ∧
    sampleRow.upper_bound = .fin 1.05 ∧ sampleRow.lower_bound = .fin 0.95 ∧
    sampleRow.upper_bound.add sampleRow.lower_bound = .fin 2 :=
  ⟨sample_eval, generateRow_bounds_constant [sampleA, sampleB] sampleRow sample_eval⟩

/-- C7: the reducer is deterministic and stateless: two calls on identical
inputs return records that agree in every one of the seven fields. -/
theorem generateRow_deterministic (qs1 qs2 : List ServerRespond) (r1 r2 : Row)
    (heq : qs1 = qs2)
    (h1 : DataManipulator.generateRow qs1 = .ok r1)
    (h2 : DataManipulator.generateRow qs2 = .ok r2) :
    r1.price_abc = r2.price_abc ∧ r1.price_def = r2.price_def ∧
    r1.ratio = r2.ratio ∧ r1.timestamp = r2.timestamp ∧
    r1.upper_bound = r2.upper_bound ∧ r1.lower_bound = r2.lower_bound ∧
    r1.trigger_alert = r2.trigger_alert := by
  subst heq
  rw [h1] at h2
  injection h2 with h2
  subst h2
  exact ⟨rfl, rfl, rfl, rfl, rfl, rfl, rfl⟩

/-- C7 witness: two calls on the Scenario A pair agree field by field. -/
theorem generateRow_deterministic_witness :
    ([sampleA, sampleB] : List ServerRespond) = [sampleA, sampleB] ∧
    sampleRow.price_abc = sampleRow.price_abc ∧
    sampleRow.price_def = sampleRow.price_def ∧
    sampleRow.ratio = sampleRow.ratio ∧
    sampleRow.timestamp = sampleRow.timestamp ∧
    sampleRow.upper_bound = sampleRow.upper_bound ∧
    sampleRow.lower_bound = sampleRow.lower_bound ∧
    sampleRow.trigger_alert = sampleRow.trigger_alert :=
  ⟨rfl, generateRow_deterministic [sampleA, sampleB] [sampleA, sampleB]
    sampleRow sampleRow rfl sample_eval sample_eval⟩

/-- A quote whose ask and bid are both 0, giving a mid-price of 0. -/
def zeroQuote : ServerRespond :=
  { top_ask := some ⟨.fin 0⟩, top_bid := some ⟨.fin 0⟩, timestamp := 0 }

/-- C5 counterexample: on a pair whose instrument B mid-price is 0 but whose
instrument A mid-price is also 0, the ratio is `NaN` (non-finite), yet
`trigger_alert` is absent, because `NaN` compares false against both bounds —
refuting the claim that the alert is always present when the B mid-price
is 0. -/
theorem generateRow_nan_alert_absent :
    DataManipulator.generateRow [zeroQuote, zeroQuote] = .ok
      { price_abc := .fin 0, price_def := .fin 0, ratio := .nan, timestamp := 0,
        upper_bound := .fin 1.05, lower_bound := .fin 0.95,
        trigger_alert := none } := by
  rw [generateRow_eq_ok [zeroQuote, zeroQuote] zeroQuote zeroQuote
    ⟨.fin 0⟩ ⟨.fin 0⟩ ⟨.fin 0⟩ ⟨.fin 0⟩ rfl rfl rfl rfl rfl rfl]
  norm_num [JSNum.add, JSNum.sub, JSNum.div, JSNum.gt, JSNum.lt, zeroQuote]

/-- C5 (amended): on every successful reduction whose instrument B mid-price is
0 and whose instrument A mid-price is a finite `a`, the reducer does not raise;
the ratio is non-finite; the alert is present and equals the ratio exactly when
`a` is nonzero (signed infinity), and is absent when `a` is 0 (`NaN` ratio). -/
theorem generateRow_zero_denominator (qs : List ServerRespond) (r : Row) (a : ℚ)
    (h : DataManipulator.generateRow qs = .ok r)
    (ha : r.price_abc = .fin a) (hb : r.price_def = .fin 0) :
    r.ratio.isFinite = false ∧
    (a ≠ 0 → r.trigger_alert = some r.ratio) ∧
    (a = 0 → r.trigger_alert = none) := by
  obtain ⟨q0, q1, ask0, bid0, ask1, bid1, -, -, -, -, -, -, hr⟩ :=
    generateRow_ok_inv qs r h
  have hratio : r.ratio = r.price_abc.div r.price_def := by rw [hr]
  have hta : r.trigger_alert =
      if (r.price_abc.div r.price_def).gt ((JSNum.fin 1).add (.fin 0.05)) ||
         (r.price_abc.div r.price_def).lt ((JSNum.fin 1).sub (.fin 0.05))
      then some (r.price_abc.div r.price_def) else none := by rw [hr]
  rw [ha, hb] at hratio hta
  rw [upperBound_val, lowerBound_val] at hta
  rw [hratio, hta]
  rcases lt_trichotomy a 0 with aneg | azero | apos
  · have hdiv : JSNum.div (.fin a) (.fin 0) = .negInf := by
      simp [JSNum.div, aneg, not_lt.mpr aneg.le]
    rw [hdiv]
    exact ⟨rfl, fun _ => rfl, fun hz => absurd hz aneg.ne⟩
  · subst azero
    have hdiv : JSNum.div (.fin 0) (.fin 0) = .nan := by
      simp [JSNum.div]
    rw [hdiv]
    exact ⟨rfl, fun hna => absurd rfl hna, fun _ => rfl⟩
  · have hdiv : JSNum.div (.fin a) (.fin 0) = .posInf := by
      simp [JSNum.div, apos, not_lt.mpr apos.le]
    rw [hdiv]
    exact ⟨rfl, fun _ => rfl, fun hz => absurd hz apos.ne'⟩

/-- A quote with ask 101 and bid 99 (mid-price 100) at time 7. -/
def zeroDenomA : ServerRespond :=
  { top_ask := some ⟨.fin 101⟩, top_bid := some ⟨.fin 99⟩, timestamp := 7 }

/-- The row produced on `[zeroDenomA, zeroQuote]`: ratio `+Infinity`, alert
present and carrying it. -/
def zeroDenomRow : Row :=
  { price_abc := .fin 100, price_def := .fin 0, ratio := .posInf, timestamp := 7,
    upper_bound := .fin 1.05, lower_bound := .fin 0.95,
    trigger_alert := some .posInf }

/-- C5 (amended) witness: instrument A mid-price 100, instrument B mid-price 0:
the ratio is the non-finite `+Infinity` and the alert carries it. -/
theorem generateRow_zero_denominator_witness :
    DataManipulator.generateRow [zeroDenomA, zeroQuote] = .ok zeroDenomRow ∧
    zeroDenomRow.price_abc = .fin 100 ∧ zeroDenomRow.price_def = .fin 0 ∧
    zeroDenomRow.ratio.isFinite = false ∧
    ((100 : ℚ) ≠ 0 → zeroDenomRow.trigger_alert = some zeroDenomRow.ratio) ∧
    ((100 : ℚ) = 0 → zeroDenomRow.trigger_alert = none) := by
  have h : DataManipulator.generateRow [zeroDenomA, zeroQuote] = .ok zeroDenomRow := by
    rw [generateRow_eq_ok [zeroDenomA, zeroQuote] zeroDenomA zeroQuote
      ⟨.fin 101⟩ ⟨.fin 99⟩ ⟨.fin 0⟩ ⟨.fin 0⟩ rfl rfl rfl rfl rfl rfl]
    norm_num [JSNum.add, JSNum.sub, JSNum.div, JSNum.gt, JSNum.lt, zeroDenomA,
      zeroQuote, zeroDenomRow]
  obtain ⟨h1, h2, h3⟩ :=
    generateRow_zero_denominator [zeroDenomA, zeroQuote] zeroDenomRow 100 h rfl rfl
  exact ⟨h, rfl, rfl, h1, h2, h3⟩

/-- C8: the view configuration declares a schema whose keys are exactly the
seven `Row` fields, mapping `timestamp` to the datetime type and every other
field to float; it pivots on `timestamp` alone; it aggregates every numeric
field with the arithmetic mean and `timestamp` with distinct-count over exactly
the seven fields; and it renders exactly the four value-axis columns `ratio`,
`lower_bound`, `upper_bound`, `trigger_alert`. -/
theorem componentDidMount_view_config :
    (Graph.componentDidMountConfig.schema.map Prod.fst).Perm Row.fieldNames ∧
    (∀ p ∈ Graph.componentDidMountConfig.schema,
      p.2 = if p.1 = "timestamp" then "date" else "float") ∧
    Graph.componentDidMountConfig.row_pivots = ["timestamp"] ∧
    (Graph.componentDidMountConfig.aggregates.map Prod.fst).Perm Row.fieldNames ∧
    (∀ p ∈ Graph.componentDidMountConfig.aggregates,
      p.2 = if p.1 = "timestamp" then "distinct count" else "avg") ∧
    Graph.componentDidMountConfig.columns =
      ["ratio", "lower_bound", "upper_bound", "trigger_alert"] := by
  refine ⟨by decide, by decide, rfl, by decide, by decide, rfl⟩

/-- C9: on an update tick whose reduction succeeds, the batch submitted to the
sink's update operation is exactly the one-element list holding the
reducer-produced record. -/
theorem componentDidUpdate_single_batch (data : List ServerRespond) (r : Row)
    (h : DataManipulator.generateRow data = .ok r) :
    Graph.componentDidUpdate data = .ok [r] := by
  simp [Graph.componentDidUpdate, h, Except.map]

/-- C9 witness: on the Scenario A pair, the submitted batch is the one-element
list holding the produced record. -/
theorem componentDidUpdate_single_batch_witness :
    DataManipulator.generateRow [sampleA, sampleB] = .ok sampleRow ∧
    Graph.componentDidUpdate [sampleA, sampleB] = .ok [sampleRow] :=
  ⟨sample_eval,
    componentDidUpdate_single_batch [sampleA, sampleB] sampleRow sample_eval⟩

/-- C10: the reducer reads only the elements at indices 0 and 1: two inputs
agreeing there produce the same result whatever their further elements, and
when those two elements carry both book sides, the extra elements cause no
error. -/
theorem generateRow_depends_on_first_two (qs1 qs2 : List ServerRespond)
    (q0 q1 : ServerRespond)
    (h10 : qs1[0]? = some q0) (h11 : qs1[1]? = some q1)
    (h20 : qs2[0]? = some q0) (h21 : qs2[1]? = some q1) :
    DataManipulator.generateRow qs1 = DataManipulator.generateRow qs2 ∧
    (∀ ask0 bid0 ask1 bid1 : TopOfBook,
      q0.top_ask = some ask0 → q0.top_bid = some bid0 →
      q1.top_ask = some ask1 → q1.top_bid = some bid1 →
      (DataManipulator.generateRow qs1).isOk = true) := by
  constructor
  · unfold DataManipulator.generateRow
    rw [h10, h11, h20, h21]
  · intro ask0 bid0 ask1 bid1 ha0 hb0 ha1 hb1
    rw [generateRow_eq_ok qs1 q0 q1 ask0 bid0 ask1 bid1 h10 h11 ha0 hb0 ha1 hb1]
    rfl

/-- C10 witness: appending a third element to the Scenario A pair changes
nothing and causes no error. -/
theorem generateRow_depends_on_first_two_witness :
    DataManipulator.generateRow [sampleA, sampleB, sampleA] =
      DataManipulator.generateRow [sampleA, sampleB] ∧
    (DataManipulator.generateRow [sampleA, sampleB, sampleA]).isOk = true := by
  have h := generateRow_depends_on_first_two [sampleA, sampleB, sampleA]
    [sampleA, sampleB] sampleA sampleB rfl rfl rfl rfl
  exact ⟨h.1, h.2 ⟨.fin 101⟩ ⟨.fin 99⟩ ⟨.fin 50⟩ ⟨.fin 50⟩ rfl rfl rfl rfl⟩
